import Mathlib

/-!
Verification development for the WL-kappa-map repository.

Shallow embedding of the three source files:
* `make_master_cubes_multiproc.py` — batch cube assembler (plane routing,
  classical-estimator derivation, FITS output, worker-pool orchestration);
* `miu2net/main/model.py` — the two network topologies (value-level fusion and
  residual structure, and a shape-level semantics of every layer);
* `visu_gaussian_blur.py` — the interactive blur visualizer's widget callbacks.

2-D numpy arrays are modelled as `List (List ℚ)` (exact rationals stand in for
the floating-point entries; none of the verified properties depends on
rounding).  Fallible Python code (out-of-range numpy indexing, unbound local
variables) is modelled in the `Option` monad.  External collaborators (the
CosmoStat mass-mapping library, `float`/`str`, `gaussian_filter`) enter as
opaque function parameters, mirroring the spec's "opaque external collaborator"
contract.
-/

set_option maxHeartbeats 1000000

/-- A 2-D array (one image plane), as in the numpy planes of the cubes. -/
abbrev Plane : Type := List (List ℚ)

/-- Elementwise map over a 2-D array. -/
def matMap (f : ℚ → ℚ) (p : Plane) : Plane := p.map (fun row => row.map f)

/-- Elementwise negation, `-a` on a numpy array. -/
def matNeg (p : Plane) : Plane := matMap (fun x => -x) p

/-- The shape of a 2-D array: number of rows and each row's length. -/
def matShape (p : Plane) : Nat × List Nat := (p.length, p.map List.length)

/-- `np.ones((nx, ny)) * v`. -/
def constMat (nx ny : Nat) (v : ℚ) : Plane := List.replicate nx (List.replicate ny v)

/-- `os.path.join(d, f)` for a directory prefix without a trailing slash. -/
def joinPath (d f : String) : String := d ++ "/" ++ f

/-!
## `make_master_cubes_multiproc.py`
-/

/-- The result of one `fits.writeto` call: destination path, the stacked 3-D
array (list of planes) and the overwrite flag. -/
structure FitsFile where
  path : String
  data : List Plane
  overwrite : Bool
deriving DecidableEq

/-- `save_cube(true, ml, ks, wiener, sparse, mcalens, save_dir, save_name)`:
expand each plane to a leading singleton axis, concatenate along axis 0, cast
to float32 (`f32` is the elementwise float32 conversion, opaque here) and write
with `overwrite=True` to `os.path.join(save_dir, save_name)`. -/
def save_cube (f32 : ℚ → ℚ) (tru ml ks wiener sparse mcalens : Plane)
    (save_dir save_name : String) : FitsFile :=
  let true1 := [tru]
  let ml1 := [ml]
  let ks1 := [ks]
  let wiener1 := [wiener]
  let sparse1 := [sparse]
  let mcalens1 := [mcalens]
  let c := true1 ++ ml1 ++ ks1 ++ wiener1 ++ sparse1 ++ mcalens1
  { path := joinPath save_dir save_name
    data := c.map (matMap f32)
    overwrite := true }

/-- The local variables of `make_cube` after the plane-extraction block.
Variables that are bound only on some paths (`ks`, `wiener`, `mcalens`) are
`Option`s; using an unbound one is a Python `NameError`, i.e. `none`. -/
structure LoadedPlanes where
  shear1 : Plane
  shear2 : Plane
  ksPre : Option Plane
  wienerPre : Option Plane
  mcalensPre : Option Plane
  pred : Plane
  tru : Plane
  res : Plane
deriving DecidableEq

/-- The plane-extraction block of `make_cube` (the `with fits.open(...)` body):
`shear1 = cube[0]`, `shear2 = cube[1]`, then positional planes depending on the
`bare` / `have_mcalens` flags.  An out-of-range index is a numpy `IndexError`,
i.e. `none`. -/
def loadPlanes (bare have_mcalens : Bool) (cube : List Plane) : Option LoadedPlanes := do
  let shear1 ← cube[0]?
  let shear2 ← cube[1]?
  if bare then do
    let pred ← cube[2]?
    let tru ← cube[3]?
    let res ← cube[4]?
    pure ⟨shear1, shear2, none, none, none, pred, tru, res⟩
  else do
    let ks ← cube[2]?
    let wiener ← cube[3]?
    if have_mcalens then do
      let mcalens ← cube[4]?
      let pred ← cube[5]?
      let tru ← cube[6]?
      let res ← cube[7]?
      pure ⟨shear1, shear2, some ks, some wiener, some mcalens, pred, tru, res⟩
    else do
      let pred ← cube[4]?
      let tru ← cube[5]?
      let res ← cube[6]?
      pure ⟨shear1, shear2, some ks, some wiener, none, pred, tru, res⟩

/-- The CosmoStat `shear_data` object as initialized by `make_cube`. -/
structure ShearData where
  g1 : Plane
  g2 : Plane
  Ncov : Plane
  nx : Nat
  ny : Nat

/-- Initialization of the CosmoStat shear class in `make_cube`:
`D.g1 = - shear1`, `D.g2 = shear2`, `D.Ncov = np.ones((512,512)) * noise_std**2`,
`D.nx, D.ny = 512, 512`.  `noise_std` stands for the value of
`shape_noise(args.n_galaxy)` (modelled over ℝ below; its exact value plays no
role in the routing properties). -/
def mkShearData (L : LoadedPlanes) (noise_std : ℚ) : ShearData :=
  { g1 := matNeg L.shear1
    g2 := L.shear2
    Ncov := constMat 512 512 (noise_std ^ 2)
    nx := 512
    ny := 512 }

/-- The external mass-mapping library (`massmap2d` methods), an opaque
collaborator: direct inversion `g2k`, Wiener filtering, sparse reconstruction
and the combined sparse+Wiener (`mcalens`) reconstruction. -/
structure ExtLib where
  g2k : Plane → Plane → Plane
  wiener : Plane → Plane → Plane → Plane → Plane × Plane
  sparse_recons : ShearData → Plane × Plane
  sparse_wiener_filtering : ShearData → Plane → Plane × Plane × Plane × Plane

/-- The CLI arguments of `make_master_cubes_multiproc.py` that `make_cube` reads. -/
structure Args where
  dir : String
  save_dir : String
  n_galaxy : ℚ
  have_mcalens : Bool
  bare : Bool

/-- The `ks` in scope at the `save_cube` call: re-derived via `M.g2k` when
`args.bare` is set, otherwise the value loaded from plane 2 (a `NameError`,
`none`, if never bound). -/
def ksOf (bare : Bool) (M : ExtLib) (D : ShearData) (L : LoadedPlanes) : Option Plane :=
  if bare then some (M.g2k D.g1 D.g2) else L.ksPre

/-- The `wiener` in scope at the `save_cube` call: re-derived via `M.wiener`
when `args.bare` is set, otherwise the value loaded from plane 3. -/
def wienerOf (bare : Bool) (M : ExtLib) (p_signal p_noise : Plane)
    (D : ShearData) (L : LoadedPlanes) : Option Plane :=
  if bare then some (M.wiener D.g1 D.g2 p_signal p_noise).1 else L.wienerPre

/-- The `mcalens` in scope at the `save_cube` call: re-derived via
`M.sparse_wiener_filtering` when `args.have_mcalens == False`, otherwise the
value loaded from plane 4 (a `NameError`, `none`, if never bound). -/
def mcalensOf (have_mcalens : Bool) (M : ExtLib) (p_signal : Plane)
    (D : ShearData) (L : LoadedPlanes) : Option Plane :=
  if have_mcalens = false then some (M.sparse_wiener_filtering D p_signal).1 else L.mcalensPre

/-- `make_cube(args, fname)`.  `readFile` models `fits.open` of the input cube
at `os.path.join(args.dir, fname)` (its primary HDU data); `p_signal` and
`p_noise` are the two fixed-path auxiliary power-spectrum files; `f32` and
`noise_std` are as above.  The result is the single `fits.writeto` output, or
`none` when the task aborts with an uncaught exception. -/
def make_cube (M : ExtLib) (p_signal p_noise : Plane) (f32 : ℚ → ℚ) (noise_std : ℚ)
    (readFile : String → Option (List Plane)) (args : Args) (fname : String) :
    Option FitsFile := do
  let cube ← readFile (joinPath args.dir fname)
  let L ← loadPlanes args.bare args.have_mcalens cube
  let D := mkShearData L noise_std
  let ks ← ksOf args.bare M D L
  let wiener ← wienerOf args.bare M p_signal p_noise D L
  let sparse := (M.sparse_recons D).1
  let mcalens ← mcalensOf args.have_mcalens M p_signal D L
  pure (save_cube f32 L.tru L.pred ks wiener sparse mcalens args.save_dir fname)

/-- Modelled from the spec: `multiprocessing.Pool.starmap` over one task per
file — the pool implementation is not part of the repository; §5 of the spec
documents each task as independent and stateless with respect to the others
("no shared mutable state ... a single crashed task does not halt or restart
others"), so the batch denotes the independent per-file task results. -/
def pool_starmap (task : String → Option FitsFile) (fnames : List String) :
    List (Option FitsFile) :=
  fnames.map task

/-- The `__main__` block: submit `make_cube` for every matched file name. -/
def run_batch (M : ExtLib) (p_signal p_noise : Plane) (f32 : ℚ → ℚ) (noise_std : ℚ)
    (readFile : String → Option (List Plane)) (args : Args) (fnames : List String) :
    List (Option FitsFile) :=
  pool_starmap (make_cube M p_signal p_noise f32 noise_std readFile args) fnames

/-- `shape_noise(n_galaxy)`: closed-form shape-noise standard deviation
(`sigma_e = 0.4`, `theta_G = 0.205`); the `print` side effect is dropped. -/
noncomputable def shape_noise (n_galaxy : ℝ) : ℝ :=
  Real.sqrt (((0.4 : ℝ) ^ 2 / 2) / ((0.205 : ℝ) ^ 2 * n_galaxy))

/-!
## `visu_gaussian_blur.py` — the two-slider branch (`radius_init` not `None`)
-/

/-- Opaque external collaborators of the visualizer: the Gaussian blur of the
fixed loaded image as a function of the two current parameters, Python
`float()` applied to a text string (`none` on a `ValueError`), and Python
`str()` on a float resp. an int. -/
structure VisuEnv (Img : Type) where
  blur : ℚ → ℤ → Img
  pyfloat : String → Option ℚ
  pystrF : ℚ → String
  pystrI : ℤ → String

/-- The mutable widget/figure state the callbacks touch: the two slider
values, the two text-box texts, and the image shown in the right panel. -/
structure VisuState (Img : Type) where
  sigma_val : ℚ
  rad_val : ℚ
  sigma_text : String
  rad_text : String
  im2 : Img
deriving DecidableEq

/-- Python `int()` on a rational: truncation toward zero. -/
def ratTrunc (q : ℚ) : ℤ := q.num / q.den

/-- Python `round(x, 2)`. -/
def round2 (q : ℚ) : ℚ := (round (q * 100) : ℤ) / 100

/-- The `update_slider` callback: read both slider values, recompute the
blurred image, and write both values back into the text boxes. -/
def update_slider (Img : Type) (env : VisuEnv Img) (s : VisuState Img) : VisuState Img :=
  let sigma := s.sigma_val
  let radius := ratTrunc s.rad_val
  { s with
      im2 := env.blur sigma radius
      sigma_text := env.pystrF sigma
      rad_text := env.pystrI radius }

/-- `sigma_slider.set_val(v)`: store the value and fire the registered
`on_changed` observer `update_slider` synchronously. -/
def sigma_slider_set_val (Img : Type) (env : VisuEnv Img) (v : ℚ) (s : VisuState Img) :
    VisuState Img :=
  update_slider Img env { s with sigma_val := v }

/-- `rad_slider.set_val(v)`: store the value and fire `update_slider`. -/
def rad_slider_set_val (Img : Type) (env : VisuEnv Img) (v : ℚ) (s : VisuState Img) :
    VisuState Img :=
  update_slider Img env { s with rad_val := v }

/-- The `update_text_box` submit callback (two-box configuration): parse the
sigma box, push it into the sigma slider, then parse the radius box and push it
into the radius slider; the bare `except: pass` turns the first parse failure
into an early exit that keeps whatever already happened. -/
def update_text_box (Img : Type) (env : VisuEnv Img) (s : VisuState Img) : VisuState Img :=
  match env.pyfloat s.sigma_text with
  | none => s
  | some sigma =>
    let s1 := sigma_slider_set_val Img env (round2 sigma) s
    match env.pyfloat s1.rad_text with
    | none => s1
    | some radius => rad_slider_set_val Img env (round2 radius) s1

/-!
## `miu2net/main/model.py` — value level

The learned modules (convolutions with their runtime weights) are opaque
functions; what is verified is the dataflow that `model.py` itself fixes: the
encode/decode/pop loop structure and residual additions of `RSU.forward` and
`RSU4F.forward`, and the `1x1conv` fusion with its hard-coded initial weights.
-/

/-- The encode loop of `RSU.forward` / `RSU4F.forward`:
`for m in mods: x = m(x); encode_outputs.append(x)`. -/
def encodeCollect {T : Type} : List (T → T) → T → List T
  | [], _ => []
  | m :: ms, x => m x :: encodeCollect ms (m x)

/-- The decode loop: `for m in mods: x2 = stack.pop(); x = m(x, x2)`; an
exhausted stack is a Python `IndexError` (`none`). -/
def decodeLoop {T : Type} : List (T → T → T) → T → List T → Option T
  | [], x, _ => some x
  | _ :: _, _, [] => none
  | m :: ms, x, x2 :: rest => decodeLoop ms (m x x2) rest

/-- The decoded feature of `RSU.forward` before the residual addition:
run the encode loop from `conv_in x`, pop the last encode output, then run the
decode loop against the remaining outputs in reverse (pop) order. -/
def rsu_decoded {T : Type} (conv_in : T → T) (enc : List (T → T))
    (dec : List (T → T → T)) (x : T) : Option T :=
  match (encodeCollect enc (conv_in x)).reverse with
  | [] => none
  | top :: restRev => decodeLoop dec top restRev

/-- `RSU.forward` (variable-depth pooling variant), with the block's modules
abstracted: `x_in = conv_in(x)`, encode loop, pop-driven decode loop, and
`return x + x_in`. -/
def rsu_forward {T : Type} [Add T] (conv_in : T → T) (enc : List (T → T))
    (dec : List (T → T → T)) (x : T) : Option T :=
  let x_in := conv_in x
  match (encodeCollect enc x_in).reverse with
  | [] => none
  | top :: restRev => (decodeLoop dec top restRev).map (fun d => d + x_in)

/-- The decode loop of `RSU4F.forward`: `x = m(torch.cat([x, x2], dim=1))`,
with `cat` abstracted. -/
def decodeLoopCat {T : Type} : List (T → T) → (T → T → T) → T → List T → Option T
  | [], _, x, _ => some x
  | _ :: _, _, _, [] => none
  | m :: ms, cat, x, x2 :: rest => decodeLoopCat ms cat (m (cat x x2)) rest

/-- The decoded feature of `RSU4F.forward` before the residual addition. -/
def rsu4f_decoded {T : Type} (conv_in : T → T) (enc : List (T → T))
    (dec : List (T → T)) (cat : T → T → T) (x : T) : Option T :=
  match (encodeCollect enc (conv_in x)).reverse with
  | [] => none
  | top :: restRev => decodeLoopCat dec cat top restRev

/-- `RSU4F.forward` (fixed dilated variant), modules abstracted. -/
def rsu4f_forward {T : Type} [Add T] (conv_in : T → T) (enc : List (T → T))
    (dec : List (T → T)) (cat : T → T → T) (x : T) : Option T :=
  let x_in := conv_in x
  match (encodeCollect enc x_in).reverse with
  | [] => none
  | top :: restRev => (decodeLoopCat dec cat top restRev).map (fun d => d + x_in)

/-- Elementwise sum of two planes (`torch.add` on equal-shaped 2-D tensors). -/
def planeZipAdd (p q : Plane) : Plane := List.zipWith (List.zipWith (· + ·)) p q

/-- Scalar multiple of a plane. -/
def planeSmul (c : ℚ) (p : Plane) : Plane := matMap (fun x => c * x) p

/-- Sum of a nonempty list of planes (empty input gives the empty plane). -/
def planeSumL : List Plane → Plane
  | [] => []
  | p :: ps => ps.foldl planeZipAdd p

/-- A 1x1 convolution with a single output channel over a stack of
single-channel inputs: per pixel, `b + Σ i, w i * chan i`. -/
def conv1x1 (w : List ℚ) (b : ℚ) (chans : List Plane) : Plane :=
  matMap (fun x => x + b) (planeSumL (List.zipWith planeSmul w chans))

/-- The 1x1-fusion weights of `U2Net.__init__`: `init_1x1_w` is a
`[1, 6, 1, 1]` tensor filled with the constant `1/6`. -/
def out_conv_weight : List ℚ := List.replicate 6 (1 / 6)

/-- The 1x1-fusion bias of `U2Net.__init__`: `torch.tensor([0.])`. -/
def out_conv_bias : ℚ := 0

/-- The `1x1conv` fusion step of `U2Net.forward` at initialization:
`self.out_conv(torch.concat(side_outputs, dim=1))` with the constant-`1/6`
weights and zero bias just installed by `__init__`. -/
def u2net_out_conv (side_outputs : List Plane) : Plane :=
  conv1x1 out_conv_weight out_conv_bias side_outputs

/-- The unweighted arithmetic average of a stack of planes. -/
def avgPlanes (chans : List Plane) : Plane :=
  planeSmul (1 / (chans.length : ℚ)) (planeSumL chans)

/-!
## `miu2net/main/model.py` — shape level

A denotational shape semantics for every tensor operation the two `forward`
methods compose, with `none` for the shape errors the underlying framework
raises (channel mismatch, too-small spatial extent, empty interpolation
target).  Sizes follow the PyTorch output-size formulas at stride 1 resp. 2.
-/

/-- The shape `(batch, channels, height, width)` of a 4-D tensor. -/
structure TShape where
  n : Nat
  ch : Nat
  h : Nat
  w : Nat
deriving DecidableEq

/-- Ceil-mode halving: `ceil((x - 2) / 2) + 1` for `avg_pool2d(kernel=2,
stride=2, ceil_mode=True)`, as a ℕ formula valid for `1 ≤ x`. -/
def ch2 (x : Nat) : Nat := (x - 1) / 2 + 1

/-- Floor-mode halving: `floor((x - 2) / 2) + 1` for `nn.AvgPool2d(2, 2)`. -/
def fl2 (x : Nat) : Nat := (x - 2) / 2 + 1

/-- `nn.Conv2d(in_ch, out_ch, k, padding=p, dilation=d)` at stride 1: requires
the channel count to match and the effective kernel `d*(k-1)+1` to fit into the
padded input; output spatial size `x + 2p - d*(k-1)`. -/
def conv2dShape (in_ch out_ch k p d : Nat) (s : TShape) : Option TShape :=
  if s.ch = in_ch ∧ d * (k - 1) + 1 ≤ s.h + 2 * p ∧ d * (k - 1) + 1 ≤ s.w + 2 * p then
    some ⟨s.n, out_ch, s.h + 2 * p - (d * (k - 1) + 1) + 1, s.w + 2 * p - (d * (k - 1) + 1) + 1⟩
  else none

/-- `nn.BatchNorm2d(feat)`: requires `feat` channels, keeps the shape. -/
def batchNorm2dShape (feat : Nat) (s : TShape) : Option TShape :=
  if s.ch = feat then some s else none

/-- `ConvBNReLU` with kernel size `k` and dilation `d`: padding is `k // 2`
when `d == 1` and `d` otherwise; ReLU keeps the shape. -/
def convBNReLUShape (in_ch out_ch k d : Nat) (s : TShape) : Option TShape :=
  (conv2dShape in_ch out_ch k (if d = 1 then k / 2 else d) d s).bind (batchNorm2dShape out_ch)

/-- `F.avg_pool2d(x, kernel_size=2, stride=2, ceil_mode=...)` resp.
`nn.AvgPool2d(2, 2)`; floor mode needs spatial extent at least 2 for a
nonempty output. -/
def avgPool2dShape (ceil_mode : Bool) (s : TShape) : Option TShape :=
  if ceil_mode then
    if 1 ≤ s.h ∧ 1 ≤ s.w then some ⟨s.n, s.ch, ch2 s.h, ch2 s.w⟩ else none
  else
    if 2 ≤ s.h ∧ 2 ≤ s.w then some ⟨s.n, s.ch, fl2 s.h, fl2 s.w⟩ else none

/-- `F.interpolate(x, size=[th, tw], mode='bilinear')` (also torchvision
`resize`): requires nonempty input and target, output spatial size `(th, tw)`. -/
def interpolateShape (th tw : Nat) (s : TShape) : Option TShape :=
  if 1 ≤ s.h ∧ 1 ≤ s.w ∧ 1 ≤ th ∧ 1 ≤ tw then some ⟨s.n, s.ch, th, tw⟩ else none

/-- `nn.Upsample(scale_factor=2)`: doubles both spatial sizes. -/
def upsample2Shape (s : TShape) : Option TShape :=
  if 1 ≤ s.h ∧ 1 ≤ s.w then some ⟨s.n, s.ch, 2 * s.h, 2 * s.w⟩ else none

/-- `torch.cat([x1, x2], dim=1)`: all non-channel dimensions must agree. -/
def catChShape (s1 s2 : TShape) : Option TShape :=
  if s1.n = s2.n ∧ s1.h = s2.h ∧ s1.w = s2.w then
    some ⟨s1.n, s1.ch + s2.ch, s1.h, s1.w⟩
  else none

/-- Elementwise `x + y` of two tensors (the residual additions): the shapes
must coincide. -/
def addShape (s1 s2 : TShape) : Option TShape :=
  if s1 = s2 then some s1 else none

/-- `DownConvBNReLU` (kernel 3, dilation 1): optional ceil-mode pooling, then
the convolution block. -/
def downConvShape (in_ch out_ch : Nat) (flag : Bool) (s : TShape) : Option TShape :=
  (if flag then avgPool2dShape true s else some s).bind (convBNReLUShape in_ch out_ch 3 1)

/-- `UpConvBNReLU` (kernel 3, dilation 1): optionally resize `x1` to `x2`'s
spatial shape, concatenate on channels, then the convolution block. -/
def upConvShape (in_ch out_ch : Nat) (flag : Bool) (x1 x2 : TShape) : Option TShape :=
  (if flag then interpolateShape x2.h x2.w x1 else some x1).bind fun x1a =>
    (catChShape x1a x2).bind (convBNReLUShape in_ch out_ch 3 1)

/-- The symmetric interior of `RSU.forward` below the first encode stage,
by recursion on the number `j` of pooling levels that remain: at the bottom
the dilated `ConvBNReLU(mid, mid, dilation=2)` followed by the flag-free
`UpConvBNReLU(mid*2, mid)`; at each higher level a pooling `DownConvBNReLU`,
the interior, then a resizing `UpConvBNReLU(mid*2, ·)` whose output channel is
`out_ch` at the top call and `mid` below it (matching `decode_list`). -/
def rsuRecShape (mid out_ch : Nat) : Nat → TShape → Option TShape
  | 0, e =>
    (convBNReLUShape mid mid 3 2 e).bind fun dl => upConvShape (mid * 2) mid false dl e
  | j + 1, e =>
    (downConvShape mid mid true e).bind fun e2 =>
      (rsuRecShape mid mid j e2).bind fun d => upConvShape (mid * 2) out_ch true d e

/-- Shape semantics of `RSU(height, in_ch, mid_ch, out_ch).forward`:
`conv_in`, the flag-free `DownConvBNReLU(out_ch, mid_ch)`, the interior with
`height - 2` pooling levels, then the residual addition with `x_in`. -/
def rsuShape (height in_ch mid out_ch : Nat) (s : TShape) : Option TShape :=
  (convBNReLUShape in_ch out_ch 3 1 s).bind fun x_in =>
    (downConvShape out_ch mid false x_in).bind fun e0 =>
      (rsuRecShape mid out_ch (height - 2) e0).bind fun d => addShape d x_in

/-- Shape semantics of `RSU4F(in_ch, mid_ch, out_ch).forward`: four dilated
encoder convolutions, three concatenating decoder convolutions, residual. -/
def rsu4fShape (in_ch mid out_ch : Nat) (s : TShape) : Option TShape :=
  (convBNReLUShape in_ch out_ch 3 1 s).bind fun x_in =>
    (convBNReLUShape out_ch mid 3 1 x_in).bind fun e1 =>
      (convBNReLUShape mid mid 3 2 e1).bind fun e2 =>
        (convBNReLUShape mid mid 3 4 e2).bind fun e3 =>
          (convBNReLUShape mid mid 3 8 e3).bind fun e4 =>
            (catChShape e4 e3).bind fun c1 =>
              (convBNReLUShape (mid * 2) mid 3 4 c1).bind fun d1 =>
                (catChShape d1 e2).bind fun c2 =>
                  (convBNReLUShape (mid * 2) mid 3 2 c2).bind fun d2 =>
                    (catChShape d2 e1).bind fun c3 =>
                      (convBNReLUShape (mid * 2) out_ch 3 1 c3).bind fun d3 =>
                        addShape d3 x_in

/-- One row of the `U2Net` configuration table:
`[height, in_ch, mid_ch, out_ch, RSU4F, side]`. -/
structure BlockCfg where
  height : Nat
  in_ch : Nat
  mid_ch : Nat
  out_ch : Nat
  isRSU4F : Bool
  side : Bool

/-- Shape semantics of one configured stage (`RSU` or `RSU4F`). -/
def blockShape (c : BlockCfg) (s : TShape) : Option TShape :=
  if c.isRSU4F then rsu4fShape c.in_ch c.mid_ch c.out_ch s
  else rsuShape c.height c.in_ch c.mid_ch c.out_ch s

/-- The `"encode"` table of `u2net_full`. -/
def u2netFullEncodeCfg (in_ch : Nat) : List BlockCfg :=
  [⟨7, in_ch, 32, 64, false, false⟩,
   ⟨6, 64, 32, 128, false, false⟩,
   ⟨5, 128, 64, 256, false, false⟩,
   ⟨4, 256, 128, 512, false, false⟩,
   ⟨4, 512, 256, 512, true, false⟩,
   ⟨4, 512, 256, 512, true, true⟩]

/-- The `"decode"` table of `u2net_full`. -/
def u2netFullDecodeCfg : List BlockCfg :=
  [⟨4, 1024, 256, 512, true, true⟩,
   ⟨4, 1024, 128, 256, false, true⟩,
   ⟨5, 512, 64, 128, false, true⟩,
   ⟨6, 256, 32, 64, false, true⟩,
   ⟨7, 128, 16, 64, false, true⟩]

/-- The encoder loop of `U2Net.forward`: run each stage, collect its output,
and ceil-mode-pool between consecutive stages (not after the last). -/
def u2netEncodeShape : List BlockCfg → TShape → Option (List TShape)
  | [], _ => some []
  | [c], x => (blockShape c x).map fun y => [y]
  | c :: c2 :: cs, x =>
    (blockShape c x).bind fun y =>
      (avgPool2dShape true y).bind fun xp =>
        (u2netEncodeShape (c2 :: cs) xp).map fun ys => y :: ys

/-- The decoder loop of `U2Net.forward`: given the remaining decode stages,
the current feature and the remaining encoder outputs in pop order, resize,
concatenate, run the stage; returns the final `decode_outputs` list (most
recent first, the popped bottom feature last). -/
def u2netDecodeShape : List BlockCfg → TShape → List TShape → Option (List TShape)
  | [], x, _ => some [x]
  | _ :: _, _, [] => none
  | c :: cs, x, e :: es =>
    (interpolateShape e.h e.w x).bind fun xi =>
      (catChShape xi e).bind fun cc =>
        (blockShape c cc).bind fun y =>
          (u2netDecodeShape cs y es).map fun rest => rest ++ [x]

/-- The side-output loop in `1x1conv` mode: each 3x3 side convolution
(input channels from the configuration), then bilinear upsampling to the input
resolution `(h, w)`; consumes `decode_outputs` in pop order and returns
`side_outputs` in its final order. -/
def u2netSideShape (out_ch h w : Nat) : List Nat → List TShape → Option (List TShape)
  | [], _ => some []
  | _ :: _, [] => none
  | c :: cs, d :: ds =>
    (conv2dShape c out_ch 3 1 1 d).bind fun sc =>
      (interpolateShape h w sc).bind fun si =>
        (u2netSideShape out_ch h w cs ds).map fun rest => rest ++ [si]

/-- The side-output loop in `laplacian_pyr` mode: side convolution, then
resize to the pyramid level `h // 2^(5-i)` for loop index `i`. -/
def u2netPyrShape (out_ch h w : Nat) : Nat → List Nat → List TShape → Option (List TShape)
  | _, [], _ => some []
  | _, _ :: _, [] => none
  | i, c :: cs, d :: ds =>
    (conv2dShape c out_ch 3 1 1 d).bind fun sc =>
      (interpolateShape (h / 2 ^ (5 - i)) (w / 2 ^ (5 - i)) sc).bind fun si =>
        (u2netPyrShape out_ch h w (i + 1) cs ds).map fun rest => rest ++ [si]

/-- The pyramid reconstruction loop: `x = resize(x, laplacian.shape) +
laplacian` over the given levels. -/
def pyrReconShape : TShape → List TShape → Option TShape
  | x, [] => some x
  | x, l :: ls =>
    (interpolateShape l.h l.w x).bind fun u => (addShape u l).bind fun y => pyrReconShape y ls

/-- `torch.concat(side_outputs, dim=1)` over a list of tensors. -/
def catAllCh : List TShape → Option TShape
  | [] => none
  | s :: ss => ss.foldlM catChShape s

/-- Shape semantics of `U2Net.forward` for a configuration table and an output
channel count, in either mode (`true` = `1x1conv`, `false` = `laplacian_pyr`);
returns the shapes of the returned list `[x] + side_outputs`. -/
def u2netForwardShape (encodeCfg decodeCfg : List BlockCfg) (out_ch : Nat)
    (mode1x1 : Bool) (s : TShape) : Option (List TShape) :=
  let sideChs :=
    (encodeCfg.filter (fun c => c.side)).map (fun c => c.out_ch) ++
      (decodeCfg.filter (fun c => c.side)).map (fun c => c.out_ch)
  (u2netEncodeShape encodeCfg s).bind fun encOuts =>
    match encOuts.reverse with
    | [] => none
    | top :: restRev =>
      (u2netDecodeShape decodeCfg top restRev).bind fun decOuts =>
        if mode1x1 then
          (u2netSideShape out_ch s.h s.w sideChs decOuts.reverse).bind fun sides =>
            (catAllCh sides).bind fun cc =>
              (conv2dShape (encodeCfg.length * out_ch) out_ch 1 0 1 cc).bind fun fused =>
                some (fused :: sides)
        else
          (u2netPyrShape out_ch s.h s.w 0 sideChs decOuts.reverse).bind fun pyr =>
            match pyr.getLast? with
            | none => none
            | some x =>
              (pyrReconShape x pyr.dropLast.reverse).bind fun fused => some (fused :: pyr)

/-- Shape semantics of the network built by `u2net_full(out_ch, in_ch, mode)`. -/
def u2net_full_shape (out_ch in_ch : Nat) (mode1x1 : Bool) (s : TShape) :
    Option (List TShape) :=
  u2netForwardShape (u2netFullEncodeCfg in_ch) u2netFullDecodeCfg out_ch mode1x1 s

/-- `UNetDeepMass.forward`, encoder stages 1–2 (`conv1`/`bn1`, `pool`,
`conv2`/`bn2`, `pool`): yields `(x1, x2, pool2)`. -/
def deepMassEnc12 (c0 : Nat) (s : TShape) : Option (TShape × TShape × TShape) := do
  let x1a ← conv2dShape c0 16 3 1 1 s
  let x1 ← batchNorm2dShape 16 x1a
  let p1 ← avgPool2dShape false x1
  let x2a ← conv2dShape 16 32 3 1 1 p1
  let x2 ← batchNorm2dShape 32 x2a
  let p2 ← avgPool2dShape false x2
  pure (x1, x2, p2)

/-- `UNetDeepMass.forward`, encoder stages 3–4 and the bottleneck
(`conv3`/`bn3`, `pool`, `conv4`/`bn4`, `pool`, `conv_deep`/`bn_deep`):
yields `(x3, x4, xdeep)`. -/
def deepMassEnc34 (p2 : TShape) : Option (TShape × TShape × TShape) := do
  let x3a ← conv2dShape 32 64 3 1 1 p2
  let x3 ← batchNorm2dShape 64 x3a
  let p3 ← avgPool2dShape false x3
  let x4a ← conv2dShape 64 64 3 1 1 p3
  let x4 ← batchNorm2dShape 64 x4a
  let pd ← avgPool2dShape false x4
  let xdeepa ← conv2dShape 64 64 3 1 1 pd
  let xdeep ← batchNorm2dShape 64 xdeepa
  pure (x3, x4, xdeep)

/-- `UNetDeepMass.forward`, decoder down to `x5` (`upsample`, merge with `x4`,
`conv_deep2`/`bn_deep2`, `upsample`, merge with `x3`, `bn5`, `conv5`). -/
def deepMassDec5 (x3 x4 xdeep : TShape) : Option TShape := do
  let updeep ← upsample2Shape xdeep
  let mergedeep ← catChShape x4 updeep
  let xdeep2a ← conv2dShape 128 64 3 1 1 mergedeep
  let xdeep2 ← batchNorm2dShape 64 xdeep2a
  let up5 ← upsample2Shape xdeep2
  let merge5a ← catChShape x3 up5
  let merge5 ← batchNorm2dShape 128 merge5a
  conv2dShape 128 64 3 1 1 merge5

/-- `UNetDeepMass.forward`, decoder from `x5` to the output (`upsample`, merge
with `x2`, `bn6`, `conv6`, `upsample`, merge with `x1`, `bn7`, `conv7`,
`conv_out`; the sigmoid keeps the shape). -/
def deepMassDec67 (c1 : Nat) (x1 x2 x5 : TShape) : Option TShape := do
  let up6 ← upsample2Shape x5
  let merge6a ← catChShape x2 up6
  let merge6 ← batchNorm2dShape 96 merge6a
  let x6 ← conv2dShape 96 32 3 1 1 merge6
  let up7 ← upsample2Shape x6
  let merge7a ← catChShape x1 up7
  let merge7 ← batchNorm2dShape 48 merge7a
  let x7 ← conv2dShape 48 16 3 1 1 merge7
  conv2dShape 16 c1 1 0 1 x7

/-- Shape semantics of `UNetDeepMass(channels=[c0, c1]).forward`: four
pool+conv encoder stages, bottleneck, four upsample+concat decoder stages,
1x1 projection, sigmoid (the four phase functions above composed). -/
def unetDeepMassShape (c0 c1 : Nat) (s : TShape) : Option TShape := do
  let e12 ← deepMassEnc12 c0 s
  let e34 ← deepMassEnc34 e12.2.2
  let x5 ← deepMassDec5 e34.1 e34.2.1 e34.2.2
  deepMassDec67 c1 e12.1 e12.2.1 x5

/-!
## Concrete instances used by witnesses and counterexamples
-/

/-- A tiny 1x1 plane holding the value `k`, used to tell planes apart. -/
def exPlane (k : ℚ) : Plane := [[k]]

/-- A synthetic 8-plane input cube with distinguishable planes. -/
def exCube8 : List Plane :=
  [exPlane 0, exPlane 1, exPlane 2, exPlane 3, exPlane 4, exPlane 5, exPlane 6, exPlane 7]

/-- A synthetic 7-plane input cube. -/
def exCube7 : List Plane :=
  [exPlane 0, exPlane 1, exPlane 2, exPlane 3, exPlane 4, exPlane 5, exPlane 6]

/-- A concrete shear-data record. -/
def exShear : ShearData := ⟨exPlane 0, exPlane 1, exPlane 2, 512, 512⟩

/-- A concrete `LoadedPlanes` record as produced in `bare` mode. -/
def exLoaded : LoadedPlanes :=
  ⟨exPlane 0, exPlane 1, none, none, none, exPlane 2, exPlane 3, exPlane 4⟩

/-- One concrete external mass-mapping library. -/
def exLibA : ExtLib :=
  { g2k := fun _ _ => exPlane 10
    wiener := fun _ _ _ _ => (exPlane 11, exPlane 12)
    sparse_recons := fun _ => (exPlane 13, exPlane 14)
    sparse_wiener_filtering := fun _ _ => (exPlane 15, exPlane 16, exPlane 17, exPlane 18) }

/-- A second external library whose direct-inversion and Wiener routines
return different maps than `exLibA`. -/
def exLibB : ExtLib :=
  { g2k := fun _ _ => exPlane 20
    wiener := fun _ _ _ _ => (exPlane 21, exPlane 22)
    sparse_recons := fun _ => (exPlane 13, exPlane 14)
    sparse_wiener_filtering := fun _ _ => (exPlane 15, exPlane 16, exPlane 17, exPlane 18) }

/-- Concrete CLI arguments: `bare=False`, `have_mcalens=False`. -/
def exArgs : Args := ⟨"in", "out", 50, false, false⟩

/-- A filesystem on which every input path holds the 7-plane cube. -/
def exReadFile : String → Option (List Plane) := fun _ => some exCube7

/-- A filesystem identical to `exReadFile` except that `in/bad.fits` holds a
corrupt (empty) cube, so the task for that file raises. -/
def exReadFileBad : String → Option (List Plane) := fun p =>
  if p = joinPath "in" "bad.fits" then some [] else some exCube7

/-- The output `make_cube` writes for `exArgs`/`exReadFile`/`exLibA` on any
input file named `m.fits`. -/
def exOut : FitsFile :=
  save_cube id (exPlane 5) (exPlane 4) (exPlane 2) (exPlane 3) (exPlane 13) (exPlane 15)
    "out" "m.fits"

/-- A concrete visualizer environment over images `ℚ × ℤ` (the blur just
records its two parameters); only the string `"2.0"` parses as a float. -/
def exVisuEnv : VisuEnv (ℚ × ℤ) :=
  { blur := fun sg r => (sg, r)
    pyfloat := fun t => if t = "2.0" then some 2 else none
    pystrF := fun _ => "fstr"
    pystrI := fun _ => "istr" }

/-- A concrete visualizer state: valid text in the sigma box, invalid text in
the radius box. -/
def exVisuState : VisuState (ℚ × ℤ) := ⟨1, 1, "2.0", "abc", (1, 1)⟩

/-- Six concrete side-output planes of a common 1x2 shape. -/
def exSides : List Plane :=
  [[[0, 1]], [[2, 3]], [[4, 5]], [[6, 7]], [[8, 9]], [[10, 11]]]

/-- A concrete `LoadedPlanes` record as produced from `exCube7` with
`bare=False`, `have_mcalens=False`. -/
def exLoadedFF : LoadedPlanes :=
  ⟨exPlane 0, exPlane 1, some (exPlane 2), some (exPlane 3), none,
   exPlane 4, exPlane 5, exPlane 6⟩

/-!
## Theorems

Helper lemmas first, then one theorem per claim (with its witness or
counterexample where required).
-/

theorem loadPlanes_bare_cons (m : Bool) (p0 p1 p2 p3 p4 : Plane) (rest : List Plane) :
    loadPlanes true m (p0 :: p1 :: p2 :: p3 :: p4 :: rest) =
      some ⟨p0, p1, none, none, none, p2, p3, p4⟩ := by
  simp [loadPlanes]

theorem loadPlanes_ff_cons (p0 p1 p2 p3 p4 p5 p6 : Plane) (rest : List Plane) :
    loadPlanes false false (p0 :: p1 :: p2 :: p3 :: p4 :: p5 :: p6 :: rest) =
      some ⟨p0, p1, some p2, some p3, none, p4, p5, p6⟩ := by
  simp [loadPlanes]

theorem loadPlanes_ft_cons (p0 p1 p2 p3 p4 p5 p6 p7 : Plane) (rest : List Plane) :
    loadPlanes false true (p0 :: p1 :: p2 :: p3 :: p4 :: p5 :: p6 :: p7 :: rest) =
      some ⟨p0, p1, some p2, some p3, some p4, p5, p6, p7⟩ := by
  simp [loadPlanes]

theorem loadPlanes_bare_fields (m : Bool) (cube : List Plane) (L : LoadedPlanes)
    (h : loadPlanes true m cube = some L) :
    L.ksPre = none ∧ L.wienerPre = none ∧ L.mcalensPre = none := by
  rcases cube with _ | ⟨p0, _ | ⟨p1, _ | ⟨p2, _ | ⟨p3, _ | ⟨p4, rest⟩⟩⟩⟩⟩ <;>
    simp_all [loadPlanes]
  cases h
  exact ⟨rfl, rfl, rfl⟩

theorem loadPlanes_not_bare_pre (m : Bool) (cube : List Plane) (L : LoadedPlanes)
    (h : loadPlanes false m cube = some L) :
    L.ksPre = cube[2]? ∧ L.wienerPre = cube[3]? := by
  cases m <;>
    rcases cube with _ | ⟨p0, _ | ⟨p1, _ | ⟨p2, _ | ⟨p3, _ | ⟨p4, _ | ⟨p5, _ | ⟨p6, _ | ⟨p7, rest⟩⟩⟩⟩⟩⟩⟩⟩ <;>
    simp_all [loadPlanes]
  all_goals (cases h; exact ⟨rfl, rfl⟩)

/-- C1: `make_cube` reads plane 0 as `g1` (negated before use, via
`D.g1 = -shear1`) and plane 1 as `g2`; with `bare=True` it consumes exactly 5
source planes (`pred` = plane 2, `true` = plane 3), with `bare=False,
have_mcalens=False` exactly 7 (`pred` = plane 4, `true` = plane 5), and with
`bare=False, have_mcalens=True` exactly 8 (`pred` = plane 5, `true` = plane 6);
no other plane index is read (the extraction only depends on the consumed
prefix, and it succeeds exactly when that many planes exist). -/
theorem c1_make_cube_plane_selection (cube : List Plane) (mcal : Bool) (noise_std : ℚ) :
    ((loadPlanes true mcal cube).isSome ↔ 5 ≤ cube.length)
    ∧ ((loadPlanes false false cube).isSome ↔ 7 ≤ cube.length)
    ∧ ((loadPlanes false true cube).isSome ↔ 8 ≤ cube.length)
    ∧ loadPlanes true mcal cube = loadPlanes true mcal (cube.take 5)
    ∧ loadPlanes false false cube = loadPlanes false false (cube.take 7)
    ∧ loadPlanes false true cube = loadPlanes false true (cube.take 8)
    ∧ (∀ p0 p1 p2 p3 p4 rest, cube = p0 :: p1 :: p2 :: p3 :: p4 :: rest →
        loadPlanes true mcal cube = some ⟨p0, p1, none, none, none, p2, p3, p4⟩)
    ∧ (∀ p0 p1 p2 p3 p4 p5 p6 rest,
        cube = p0 :: p1 :: p2 :: p3 :: p4 :: p5 :: p6 :: rest →
        loadPlanes false false cube = some ⟨p0, p1, some p2, some p3, none, p4, p5, p6⟩)
    ∧ (∀ p0 p1 p2 p3 p4 p5 p6 p7 rest,
        cube = p0 :: p1 :: p2 :: p3 :: p4 :: p5 :: p6 :: p7 :: rest →
        loadPlanes false true cube =
          some ⟨p0, p1, some p2, some p3, some p4, p5, p6, p7⟩)
    ∧ (∀ L : LoadedPlanes,
        (mkShearData L noise_std).g1 = matNeg L.shear1
        ∧ (mkShearData L noise_std).g2 = L.shear2) := by
  refine ⟨?_, ?_, ?_, ?_, ?_, ?_, ?_, ?_, ?_, fun L => ⟨rfl, rfl⟩⟩ <;>
    rcases cube with _ | ⟨p0, _ | ⟨p1, _ | ⟨p2, _ | ⟨p3, _ | ⟨p4, _ | ⟨p5, _ | ⟨p6, _ | ⟨p7, rest⟩⟩⟩⟩⟩⟩⟩⟩ <;>
    simp_all [loadPlanes]

/-- Witness for C1 at a concrete synthetic 8-plane cube. -/
theorem c1_make_cube_plane_selection_witness :
    (loadPlanes false true exCube8).isSome
    ∧ loadPlanes true false exCube8 =
        some ⟨exPlane 0, exPlane 1, none, none, none, exPlane 2, exPlane 3, exPlane 4⟩ :=
  ⟨((c1_make_cube_plane_selection exCube8 false 1).2.2.1).mpr (by decide),
   (c1_make_cube_plane_selection exCube8 false 1).2.2.2.2.2.2.1
     (exPlane 0) (exPlane 1) (exPlane 2) (exPlane 3) (exPlane 4)
     [exPlane 5, exPlane 6, exPlane 7] rfl⟩

/-- Counterexample to C2 as stated: with `bare` set, the direct-inversion and
Wiener estimates depend on the external mass-mapping library (two libraries
that differ only in those routines give different results), so they are
re-derived rather than taken from precomputed planes — and they are not the
(nonexistent) precomputed values either. -/
theorem c2_counterexample :
    ksOf true exLibA exShear exLoaded ≠ ksOf true exLibB exShear exLoaded
    ∧ wienerOf true exLibA (exPlane 8) (exPlane 9) exShear exLoaded ≠
        wienerOf true exLibB (exPlane 8) (exPlane 9) exShear exLoaded
    ∧ ksOf true exLibA exShear exLoaded ≠ exLoaded.ksPre
    ∧ wienerOf true exLibA (exPlane 8) (exPlane 9) exShear exLoaded ≠
        exLoaded.wienerPre := by
  decide

/-- C2 (amended): it is when `bare` is NOT set that `make_cube` takes the
direct-inversion (`ks`) and Wiener estimates from the precomputed planes 2 and
3 of the input cube, independently of the external library; when `bare` IS set
they are re-derived via the external library (`M.g2k`, `M.wiener`). -/
theorem c2_estimator_source_amended (M : ExtLib) (p_signal p_noise : Plane)
    (D : ShearData) (L : LoadedPlanes) :
    (ksOf true M D L = some (M.g2k D.g1 D.g2)
      ∧ wienerOf true M p_signal p_noise D L = some (M.wiener D.g1 D.g2 p_signal p_noise).1)
    ∧ (∀ (cube : List Plane) (mcal : Bool), loadPlanes false mcal cube = some L →
        ksOf false M D L = cube[2]? ∧ wienerOf false M p_signal p_noise D L = cube[3]?)
    ∧ (∀ M2 : ExtLib,
        ksOf false M D L = ksOf false M2 D L
        ∧ wienerOf false M p_signal p_noise D L = wienerOf false M2 p_signal p_noise D L) := by
  refine ⟨⟨rfl, rfl⟩, ?_, fun M2 => ⟨rfl, rfl⟩⟩
  intro cube mcal h
  have hp := loadPlanes_not_bare_pre mcal cube L h
  exact ⟨hp.1, hp.2⟩

/-- Witness for C2 (amended) at the concrete 7-plane cube. -/
theorem c2_estimator_source_witness :
    ksOf false exLibA exShear exLoadedFF = exCube7[2]?
    ∧ wienerOf false exLibA (exPlane 8) (exPlane 9) exShear exLoadedFF = exCube7[3]? :=
  (c2_estimator_source_amended exLibA (exPlane 8) (exPlane 9) exShear exLoadedFF).2.1
    exCube7 false (by decide)

/-- C3: `save_cube` produces a single output at
`os.path.join(save_dir, save_name)` with unconditional overwrite, whose array
has exactly 6 leading entries in the order true, predicted, direct-inversion,
Wiener, sparse, combined, each the float32 cast of the corresponding input
plane (so of the same 2-D shape); `make_cube` invokes it with the original
input file name under `args.save_dir`. -/
theorem c3_save_cube_output (f32 : ℚ → ℚ) (tru ml ks wiener sparse mcalens : Plane)
    (save_dir save_name : String) :
    save_cube f32 tru ml ks wiener sparse mcalens save_dir save_name =
      { path := joinPath save_dir save_name
        data := [matMap f32 tru, matMap f32 ml, matMap f32 ks, matMap f32 wiener,
                 matMap f32 sparse, matMap f32 mcalens]
        overwrite := true }
    ∧ (save_cube f32 tru ml ks wiener sparse mcalens save_dir save_name).data.length = 6
    ∧ (∀ p : Plane, matShape (matMap f32 p) = matShape p)
    ∧ (∀ (M : ExtLib) (p_signal p_noise : Plane) (noise_std : ℚ)
          (readFile : String → Option (List Plane)) (args : Args) (fname : String)
          (out : FitsFile),
        make_cube M p_signal p_noise f32 noise_std readFile args fname = some out →
          out.path = joinPath args.save_dir fname ∧ out.overwrite = true
          ∧ out.data.length = 6) := by
  refine ⟨rfl, rfl, ?_, ?_⟩
  · intro p
    simp [matShape, matMap]
  · intro M p_signal p_noise noise_std readFile args fname out h
    simp only [make_cube, Option.bind_eq_bind, Option.bind_eq_some, Option.pure_def,
      Option.some_inj] at h
    obtain ⟨cube, hc, L, hL, ks2, hks, w2, hw, mc2, hmc, hout⟩ := h
    rw [← hout]
    exact ⟨rfl, rfl, rfl⟩

/-- Witness for C3's `make_cube` conjunct: a concrete successful run writes to
`out/m.fits`. -/
theorem c3_save_cube_output_witness :
    exOut.path = joinPath "out" "m.fits" ∧ exOut.overwrite = true
    ∧ exOut.data.length = 6 :=
  (c3_save_cube_output id (exPlane 5) (exPlane 4) (exPlane 2) (exPlane 3) (exPlane 13)
        (exPlane 15) "out" "m.fits").2.2.2
    exLibA (exPlane 8) (exPlane 9) 1 exReadFile exArgs "m.fits" exOut (by decide)

/-- C9: batch fault isolation.  The result slot for each file in the batch is
exactly the outcome of that file's own task, and a task's outcome only depends
on the content of its own input path — so a file whose processing raises
(returns `none`) leaves every other file's output written. -/
theorem c9_batch_isolation (M : ExtLib) (p_signal p_noise : Plane) (f32 : ℚ → ℚ)
    (noise_std : ℚ) (readFile : String → Option (List Plane)) (args : Args)
    (fnames : List String) (i : Nat) :
    (run_batch M p_signal p_noise f32 noise_std readFile args fnames)[i]? =
      (fnames[i]?).map (make_cube M p_signal p_noise f32 noise_std readFile args)
    ∧ ∀ (readFile2 : String → Option (List Plane)) (fname : String),
        readFile (joinPath args.dir fname) = readFile2 (joinPath args.dir fname) →
          make_cube M p_signal p_noise f32 noise_std readFile args fname =
            make_cube M p_signal p_noise f32 noise_std readFile2 args fname := by
  constructor
  · simp [run_batch, pool_starmap]
  · intro readFile2 fname h
    unfold make_cube
    rw [h]

/-- Witness for C9: with a batch `[m.fits, bad.fits]` where `bad.fits` is
corrupt (its task aborts), the `m.fits` output is still written and equals the
output of the all-good run. -/
theorem c9_batch_isolation_witness :
    (run_batch exLibA (exPlane 8) (exPlane 9) id 1 exReadFileBad exArgs
        ["m.fits", "bad.fits"])[0]? =
      some (make_cube exLibA (exPlane 8) (exPlane 9) id 1 exReadFileBad exArgs "m.fits")
    ∧ make_cube exLibA (exPlane 8) (exPlane 9) id 1 exReadFile exArgs "m.fits" =
        make_cube exLibA (exPlane 8) (exPlane 9) id 1 exReadFileBad exArgs "m.fits" :=
  ⟨(c9_batch_isolation exLibA (exPlane 8) (exPlane 9) id 1 exReadFileBad exArgs
      ["m.fits", "bad.fits"] 0).1,
   (c9_batch_isolation exLibA (exPlane 8) (exPlane 9) id 1 exReadFile exArgs
      ["m.fits", "bad.fits"] 0).2 exReadFileBad "m.fits" (by decide)⟩

/-- C10: with `bare=True` and `have_mcalens=True` simultaneously, `make_cube`
always aborts (the `mcalens` local is never bound: it is neither read from the
cube nor re-derived, so the `save_cube` call raises `NameError`) and no output
file is produced, whatever the input. -/
theorem c10_bare_mcalens_name_error (M : ExtLib) (p_signal p_noise : Plane)
    (f32 : ℚ → ℚ) (noise_std : ℚ) (readFile : String → Option (List Plane))
    (dir save_dir : String) (n_galaxy : ℚ) (fname : String) :
    make_cube M p_signal p_noise f32 noise_std readFile
      ⟨dir, save_dir, n_galaxy, true, true⟩ fname = none := by
  unfold make_cube
  cases hrf : readFile (joinPath dir fname) with
  | none => rfl
  | some cube =>
    cases hL : loadPlanes true true cube with
    | none => simp [hL]
    | some L =>
      have hm := (loadPlanes_bare_fields true cube L hL).2.2
      simp [hL, ksOf, wienerOf, mcalensOf, hm]

/-- C6: the shape-noise standard deviation scales as the inverse square root
of the galaxy density: for `0 < n`, `shape_noise n = shape_noise 1 / √n`, and
in particular `shape_noise (4*n) = shape_noise n / 2` (the function is a pure
closed-form expression in `n`). -/
theorem c6_shape_noise_scaling (n : ℝ) (hn : 0 < n) :
    shape_noise n = shape_noise 1 / Real.sqrt n
    ∧ shape_noise (4 * n) = shape_noise n / 2 := by
  constructor
  · unfold shape_noise
    have e1 : ((0.4 : ℝ) ^ 2 / 2) / ((0.205 : ℝ) ^ 2 * n) =
        (((0.4 : ℝ) ^ 2 / 2) / ((0.205 : ℝ) ^ 2 * 1)) / n := by
      rw [mul_one, div_div, div_div, div_div]
    rw [e1, Real.sqrt_div (by positivity) n]
  · unfold shape_noise
    have e2 : ((0.4 : ℝ) ^ 2 / 2) / ((0.205 : ℝ) ^ 2 * (4 * n)) =
        (((0.4 : ℝ) ^ 2 / 2) / ((0.205 : ℝ) ^ 2 * n)) / 4 := by
      rw [div_div]
      ring_nf
    have h4 : Real.sqrt 4 = 2 := by
      rw [show (4 : ℝ) = 2 ^ 2 by norm_num, Real.sqrt_sq (by norm_num : (0 : ℝ) ≤ 2)]
    rw [e2, Real.sqrt_div (by positivity) 4, h4]

/-- Witness for C6 at `n = 1`. -/
theorem c6_shape_noise_scaling_witness : shape_noise (4 * 1) = shape_noise 1 / 2 :=
  (c6_shape_noise_scaling 1 one_pos).2

theorem row_zipAdd_smul (c : ℚ) :
    ∀ r s : List ℚ,
      List.zipWith (fun a b => c * a + c * b) r s =
        (List.zipWith (· + ·) r s).map (fun x => c * x) := by
  intro r
  induction r with
  | nil => intro s; simp
  | cons a r ih =>
    intro s
    cases s with
    | nil => simp
    | cons b s => simp [ih, mul_add]

theorem zipAdd_smul (c : ℚ) (p q : Plane) :
    planeZipAdd (planeSmul c p) (planeSmul c q) = planeSmul c (planeZipAdd p q) := by
  unfold planeZipAdd planeSmul matMap
  induction p generalizing q with
  | nil => simp
  | cons r p ih =>
    cases q with
    | nil => simp
    | cons s q => simp [ih, row_zipAdd_smul]

theorem matMap_add_zero (p : Plane) : matMap (fun x => x + 0) p = p := by
  simp [matMap]

theorem matMap_id (p : Plane) : matMap (fun x => x) p = p := by
  simp [matMap]

/-- C4: immediately after `U2Net.__init__` in `1x1conv` mode (before any
training), the fused primary output — the 1x1 convolution with the just
installed constant-`1/6` weights and zero bias over the six concatenated
upsampled side outputs — equals their unweighted arithmetic average. -/
theorem c4_fusion_init_average (side_outputs : List Plane)
    (h : side_outputs.length = 6) :
    u2net_out_conv side_outputs = avgPlanes side_outputs := by
  rcases side_outputs with _ | ⟨a, _ | ⟨b, _ | ⟨c, _ | ⟨d, _ | ⟨e, _ | ⟨f, rest⟩⟩⟩⟩⟩⟩ <;>
    simp_all
  have hw : out_conv_weight = [1/6, 1/6, 1/6, 1/6, 1/6, 1/6] := rfl
  unfold u2net_out_conv conv1x1 avgPlanes planeSumL out_conv_bias
  rw [hw]
  simp [matMap_add_zero, matMap_id, zipAdd_smul]

/-- Witness for C4 at six concrete side-output planes. -/
theorem c4_fusion_init_average_witness :
    u2net_out_conv exSides = avgPlanes exSides :=
  c4_fusion_init_average exSides (by decide)

/-- Counterexample to C7 as stated: the residual added at block output is
`conv_in(x)` (`x_in`), not the original block input `x` — at a concrete
instance the two differ. -/
theorem c7_residual_counterexample :
    ¬ (rsu_forward (fun a => a + 1) [fun a => a] [] (0 : ℚ) =
        (rsu_decoded (fun a => a + 1) [fun a => a] [] (0 : ℚ)).map
          (fun d => d + (0 : ℚ))) := by
  norm_num [rsu_forward, rsu_decoded, encodeCollect, decodeLoop]

/-- C7 (amended): for every input `x`, both residual block variants return
their decoded feature plus `conv_in(x)` — the block input after the initial
convolution (`x_in`), not `x` itself — as the residual at block output. -/
theorem c7_residual_amended {T : Type} [Add T] (conv_in : T → T) (enc : List (T → T))
    (dec : List (T → T → T)) (dec4 : List (T → T)) (cat : T → T → T) (x : T) :
    rsu_forward conv_in enc dec x =
      (rsu_decoded conv_in enc dec x).map (fun d => d + conv_in x)
    ∧ rsu4f_forward conv_in enc dec4 cat x =
        (rsu4f_decoded conv_in enc dec4 cat x).map (fun d => d + conv_in x) := by
  constructor
  · unfold rsu_forward rsu_decoded
    dsimp only
    cases h : (encodeCollect enc (conv_in x)).reverse <;> rfl
  · unfold rsu4f_forward rsu4f_decoded
    dsimp only
    cases h : (encodeCollect enc (conv_in x)).reverse <;> rfl

/-- Witness for C7 (amended) at a concrete rational instance. -/
theorem c7_residual_amended_witness :
    rsu_forward (fun a => a + 1) [fun a => a] [] (0 : ℚ) =
      (rsu_decoded (fun a => a + 1) [fun a => a] [] (0 : ℚ)).map
        (fun d => d + (fun a : ℚ => a + 1) 0) :=
  (c7_residual_amended (fun a => a + 1) [fun a => a] [] [] (fun a _ => a) 0).1

/-- C8 (amended): the submit callback never raises (it is a total function);
when the sigma box's text does not parse, the whole update is discarded (state
unchanged); but when the sigma text parses and only the radius box's text
fails to parse, the sigma slider update and the image recomputation are still
applied — only the radius update is discarded (the radius slider value is
unchanged). -/
theorem c8_invalid_text_amended (Img : Type) (env : VisuEnv Img) (s : VisuState Img) :
    (env.pyfloat s.sigma_text = none → update_text_box Img env s = s)
    ∧ (∀ sigma, env.pyfloat s.sigma_text = some sigma →
        (update_text_box Img env s).sigma_val = round2 sigma
        ∧ (update_text_box Img env s).im2 =
            env.blur (round2 sigma) (ratTrunc (update_text_box Img env s).rad_val)
        ∧ (env.pyfloat (env.pystrI (ratTrunc s.rad_val)) = none →
            (update_text_box Img env s).rad_val = s.rad_val)) := by
  constructor
  · intro h
    simp [update_text_box, h]
  · intro sigma hs
    cases h2 : env.pyfloat (env.pystrI (ratTrunc s.rad_val)) with
    | none =>
      simp [update_text_box, hs, sigma_slider_set_val, rad_slider_set_val, update_slider, h2]
    | some r =>
      simp [update_text_box, hs, sigma_slider_set_val, rad_slider_set_val, update_slider, h2]

/-- Counterexample to C8 as stated: with valid text in the sigma box and
invalid text in the radius box, the submitted update is not discarded — the
sigma slider value and the displayed blurred image both change. -/
theorem c8_invalid_text_counterexample :
    exVisuEnv.pyfloat exVisuState.rad_text = none
    ∧ (update_text_box (ℚ × ℤ) exVisuEnv exVisuState).sigma_val ≠ exVisuState.sigma_val
    ∧ (update_text_box (ℚ × ℤ) exVisuEnv exVisuState).im2 ≠ exVisuState.im2 := by
  have hk : (("istr" : String) = "2.0") = False := by decide
  refine ⟨rfl, ?_, ?_⟩ <;>
    norm_num [update_text_box, exVisuEnv, exVisuState, sigma_slider_set_val,
      rad_slider_set_val, update_slider, round2, ratTrunc, hk]

/-- Witness for C8 (amended): the sigma-applied/radius-discarded case and the
all-discarded case, at concrete states. -/
theorem c8_invalid_text_amended_witness :
    (update_text_box (ℚ × ℤ) exVisuEnv exVisuState).sigma_val = round2 2
    ∧ (update_text_box (ℚ × ℤ) exVisuEnv exVisuState).rad_val = exVisuState.rad_val
    ∧ update_text_box (ℚ × ℤ) exVisuEnv { exVisuState with sigma_text := "zz" } =
        { exVisuState with sigma_text := "zz" } :=
  ⟨((c8_invalid_text_amended (ℚ × ℤ) exVisuEnv exVisuState).2 2 rfl).1,
   ((c8_invalid_text_amended (ℚ × ℤ) exVisuEnv exVisuState).2 2 rfl).2.2 rfl,
   (c8_invalid_text_amended (ℚ × ℤ) exVisuEnv
       { exVisuState with sigma_text := "zz" }).1 rfl⟩

theorem one_le_ch2 (x : Nat) : 1 ≤ ch2 x := by
  simp [ch2]

theorem one_le_fl2 (x : Nat) : 1 ≤ fl2 x := by
  simp [fl2]

theorem batchNorm2dShape_same (f n c h w : Nat) (hc : c = f) :
    batchNorm2dShape f ⟨n, c, h, w⟩ = some ⟨n, c, h, w⟩ := by
  simp [batchNorm2dShape, hc]

theorem conv2dShape_k3d (i o d n c h w : Nat) (hc : c = i) (hd : 1 ≤ d)
    (hh : 1 ≤ h) (hw : 1 ≤ w) :
    conv2dShape i o 3 d d ⟨n, c, h, w⟩ = some ⟨n, o, h, w⟩ := by
  subst hc
  simp only [conv2dShape]
  rw [if_pos ⟨trivial, by omega, by omega⟩]
  simp only [Option.some.injEq, TShape.mk.injEq]
  exact ⟨trivial, trivial, by omega, by omega⟩

theorem conv2dShape_k1 (i o n c h w : Nat) (hc : c = i) (hh : 1 ≤ h) (hw : 1 ≤ w) :
    conv2dShape i o 1 0 1 ⟨n, c, h, w⟩ = some ⟨n, o, h, w⟩ := by
  subst hc
  simp only [conv2dShape]
  rw [if_pos ⟨trivial, by omega, by omega⟩]
  simp only [Option.some.injEq, TShape.mk.injEq]
  exact ⟨trivial, trivial, by omega, by omega⟩

theorem convBNReLUShape_same (i o d n c h w : Nat) (hc : c = i) (hd : 1 ≤ d)
    (hh : 1 ≤ h) (hw : 1 ≤ w) :
    convBNReLUShape i o 3 d ⟨n, c, h, w⟩ = some ⟨n, o, h, w⟩ := by
  unfold convBNReLUShape
  have hp : (if d = 1 then 3 / 2 else d) = d := by
    by_cases h1 : d = 1 <;> simp [h1]
  rw [hp, conv2dShape_k3d i o d n c h w hc hd hh hw, Option.some_bind']
  exact batchNorm2dShape_same o n o h w rfl

theorem avgPool2dShape_ceil (n c h w : Nat) (hh : 1 ≤ h) (hw : 1 ≤ w) :
    avgPool2dShape true ⟨n, c, h, w⟩ = some ⟨n, c, ch2 h, ch2 w⟩ := by
  simp [avgPool2dShape, hh, hw]

theorem avgPool2dShape_floor (n c h w : Nat) (hh : 2 ≤ h) (hw : 2 ≤ w) :
    avgPool2dShape false ⟨n, c, h, w⟩ = some ⟨n, c, fl2 h, fl2 w⟩ := by
  simp [avgPool2dShape, hh, hw]

theorem interpolateShape_eq (th tw n c h w : Nat) (hh : 1 ≤ h) (hw : 1 ≤ w)
    (hth : 1 ≤ th) (htw : 1 ≤ tw) :
    interpolateShape th tw ⟨n, c, h, w⟩ = some ⟨n, c, th, tw⟩ := by
  simp [interpolateShape, hh, hw, hth, htw]

theorem upsample2Shape_eq (n c h w : Nat) (hh : 1 ≤ h) (hw : 1 ≤ w) :
    upsample2Shape ⟨n, c, h, w⟩ = some ⟨n, c, 2 * h, 2 * w⟩ := by
  simp [upsample2Shape, hh, hw]

theorem catChShape_eq (n c1 c2 h w : Nat) :
    catChShape ⟨n, c1, h, w⟩ ⟨n, c2, h, w⟩ = some ⟨n, c1 + c2, h, w⟩ := by
  simp [catChShape]

theorem addShape_eq (s : TShape) : addShape s s = some s := by
  simp [addShape]

theorem downConvShape_false (i o n h w : Nat) (hh : 1 ≤ h) (hw : 1 ≤ w) :
    downConvShape i o false ⟨n, i, h, w⟩ = some ⟨n, o, h, w⟩ := by
  unfold downConvShape
  simp only [Bool.false_eq_true, if_false, Option.some_bind']
  exact convBNReLUShape_same i o 1 n i h w rfl (by omega) hh hw

theorem downConvShape_true (i o n h w : Nat) (hh : 1 ≤ h) (hw : 1 ≤ w) :
    downConvShape i o true ⟨n, i, h, w⟩ = some ⟨n, o, ch2 h, ch2 w⟩ := by
  unfold downConvShape
  simp only [if_true]
  rw [avgPool2dShape_ceil n i h w hh hw, Option.some_bind']
  exact convBNReLUShape_same i o 1 n i (ch2 h) (ch2 w) rfl (by omega) (one_le_ch2 h)
    (one_le_ch2 w)

theorem upConvShape_false (i o n c1 c2 h w : Nat) (hc : c1 + c2 = i)
    (hh : 1 ≤ h) (hw : 1 ≤ w) :
    upConvShape i o false ⟨n, c1, h, w⟩ ⟨n, c2, h, w⟩ = some ⟨n, o, h, w⟩ := by
  unfold upConvShape
  simp only [Bool.false_eq_true, if_false, Option.some_bind']
  rw [catChShape_eq n c1 c2 h w, Option.some_bind']
  exact convBNReLUShape_same i o 1 n (c1 + c2) h w hc (by omega) hh hw

theorem upConvShape_true (i o n c1 c2 h w h2 w2 : Nat) (hc : c1 + c2 = i)
    (hh : 1 ≤ h) (hw : 1 ≤ w) (hh2 : 1 ≤ h2) (hw2 : 1 ≤ w2) :
    upConvShape i o true ⟨n, c1, h, w⟩ ⟨n, c2, h2, w2⟩ = some ⟨n, o, h2, w2⟩ := by
  unfold upConvShape
  simp only [if_true]
  rw [interpolateShape_eq h2 w2 n c1 h w hh hw hh2 hw2, Option.some_bind']
  rw [catChShape_eq n c1 c2 h2 w2, Option.some_bind']
  exact convBNReLUShape_same i o 1 n (c1 + c2) h2 w2 hc (by omega) hh2 hw2

theorem rsuRecShape_eq (j : Nat) :
    ∀ (mid outc n h w : Nat), 1 ≤ h → 1 ≤ w →
      rsuRecShape mid outc j ⟨n, mid, h, w⟩ =
        some ⟨n, if j = 0 then mid else outc, h, w⟩ := by
  induction j with
  | zero =>
    intro mid outc n h w hh hw
    show (convBNReLUShape mid mid 3 2 ⟨n, mid, h, w⟩).bind
        (fun dl => upConvShape (mid * 2) mid false dl ⟨n, mid, h, w⟩) = _
    rw [convBNReLUShape_same mid mid 2 n mid h w rfl (by omega) hh hw, Option.some_bind']
    rw [upConvShape_false (mid * 2) mid n mid mid h w (by omega) hh hw]
    simp
  | succ j ih =>
    intro mid outc n h w hh hw
    show (downConvShape mid mid true ⟨n, mid, h, w⟩).bind
        (fun e2 => (rsuRecShape mid mid j e2).bind
          (fun d => upConvShape (mid * 2) outc true d ⟨n, mid, h, w⟩)) = _
    rw [downConvShape_true mid mid n h w hh hw, Option.some_bind']
    rw [ih mid mid n (ch2 h) (ch2 w) (one_le_ch2 h) (one_le_ch2 w), Option.some_bind']
    rw [show (if j = 0 then mid else mid) = mid by simp]
    rw [upConvShape_true (mid * 2) outc n mid mid (ch2 h) (ch2 w) h w (by omega)
      (one_le_ch2 h) (one_le_ch2 w) hh hw]
    simp

theorem rsuShape_eq (height i mid o n h w : Nat) (hht : 3 ≤ height)
    (hh : 1 ≤ h) (hw : 1 ≤ w) :
    rsuShape height i mid o ⟨n, i, h, w⟩ = some ⟨n, o, h, w⟩ := by
  unfold rsuShape
  rw [convBNReLUShape_same i o 1 n i h w rfl (by omega) hh hw, Option.some_bind']
  rw [downConvShape_false o mid n h w hh hw, Option.some_bind']
  rw [rsuRecShape_eq (height - 2) mid o n h w hh hw, Option.some_bind']
  rw [show (if height - 2 = 0 then mid else o) = o by
    rw [if_neg]
    omega]
  exact addShape_eq ⟨n, o, h, w⟩

theorem rsu4fShape_eq (i mid o n h w : Nat) (hh : 1 ≤ h) (hw : 1 ≤ w) :
    rsu4fShape i mid o ⟨n, i, h, w⟩ = some ⟨n, o, h, w⟩ := by
  unfold rsu4fShape
  rw [convBNReLUShape_same i o 1 n i h w rfl (by omega) hh hw, Option.some_bind']
  rw [convBNReLUShape_same o mid 1 n o h w rfl (by omega) hh hw, Option.some_bind']
  rw [convBNReLUShape_same mid mid 2 n mid h w rfl (by omega) hh hw, Option.some_bind']
  rw [convBNReLUShape_same mid mid 4 n mid h w rfl (by omega) hh hw, Option.some_bind']
  rw [convBNReLUShape_same mid mid 8 n mid h w rfl (by omega) hh hw, Option.some_bind']
  rw [catChShape_eq n mid mid h w, Option.some_bind']
  rw [convBNReLUShape_same (mid * 2) mid 4 n (mid + mid) h w (by omega) (by omega) hh hw,
    Option.some_bind']
  rw [catChShape_eq n mid mid h w, Option.some_bind']
  rw [convBNReLUShape_same (mid * 2) mid 2 n (mid + mid) h w (by omega) (by omega) hh hw,
    Option.some_bind']
  rw [catChShape_eq n mid mid h w, Option.some_bind']
  rw [convBNReLUShape_same (mid * 2) o 1 n (mid + mid) h w (by omega) (by omega) hh hw,
    Option.some_bind']
  exact addShape_eq ⟨n, o, h, w⟩

theorem u2netFullEncode_eq (b h w : Nat) (hh : 1 ≤ h) (hw : 1 ≤ w) :
    u2netEncodeShape (u2netFullEncodeCfg 2) ⟨b, 2, h, w⟩ =
      some [⟨b, 64, h, w⟩, ⟨b, 128, ch2 h, ch2 w⟩, ⟨b, 256, ch2 (ch2 h), ch2 (ch2 w)⟩,
        ⟨b, 512, ch2 (ch2 (ch2 h)), ch2 (ch2 (ch2 w))⟩,
        ⟨b, 512, ch2 (ch2 (ch2 (ch2 h))), ch2 (ch2 (ch2 (ch2 w)))⟩,
        ⟨b, 512, ch2 (ch2 (ch2 (ch2 (ch2 h)))), ch2 (ch2 (ch2 (ch2 (ch2 w))))⟩] := by
  simp only [u2netFullEncodeCfg, u2netEncodeShape, blockShape, Bool.false_eq_true, if_false,
    if_true, rsuShape_eq, rsu4fShape_eq, Option.some_bind', Option.map_some',
    avgPool2dShape_ceil, one_le_ch2, hh, hw,
    show (3:Nat) ≤ 7 by omega, show (3:Nat) ≤ 6 by omega,
    show (3:Nat) ≤ 5 by omega, show (3:Nat) ≤ 4 by omega]


theorem u2netFullDecode_eq (b h w : Nat) (hh : 1 ≤ h) (hw : 1 ≤ w) :
    u2netDecodeShape u2netFullDecodeCfg
      ⟨b, 512, ch2 (ch2 (ch2 (ch2 (ch2 h)))), ch2 (ch2 (ch2 (ch2 (ch2 w))))⟩
      [⟨b, 512, ch2 (ch2 (ch2 (ch2 h))), ch2 (ch2 (ch2 (ch2 w)))⟩,
       ⟨b, 512, ch2 (ch2 (ch2 h)), ch2 (ch2 (ch2 w))⟩,
       ⟨b, 256, ch2 (ch2 h), ch2 (ch2 w)⟩,
       ⟨b, 128, ch2 h, ch2 w⟩,
       ⟨b, 64, h, w⟩] =
      some [⟨b, 64, h, w⟩, ⟨b, 64, ch2 h, ch2 w⟩, ⟨b, 128, ch2 (ch2 h), ch2 (ch2 w)⟩,
        ⟨b, 256, ch2 (ch2 (ch2 h)), ch2 (ch2 (ch2 w))⟩,
        ⟨b, 512, ch2 (ch2 (ch2 (ch2 h))), ch2 (ch2 (ch2 (ch2 w)))⟩,
        ⟨b, 512, ch2 (ch2 (ch2 (ch2 (ch2 h)))), ch2 (ch2 (ch2 (ch2 (ch2 w))))⟩] := by
  simp only [u2netFullDecodeCfg, u2netDecodeShape, blockShape, Bool.false_eq_true, if_false,
    if_true, rsuShape_eq, rsu4fShape_eq, Option.some_bind', Option.map_some',
    interpolateShape_eq, catChShape_eq, one_le_ch2, hh, hw, Nat.reduceAdd,
    show (3:Nat) ≤ 7 by omega, show (3:Nat) ≤ 6 by omega,
    show (3:Nat) ≤ 5 by omega, show (3:Nat) ≤ 4 by omega]
  rfl

theorem u2netFullShape_1x1 (b h w : Nat) (hh : 1 ≤ h) (hw : 1 ≤ w) :
    u2net_full_shape 1 2 true ⟨b, 2, h, w⟩ =
      some [⟨b, 1, h, w⟩, ⟨b, 1, h, w⟩, ⟨b, 1, h, w⟩, ⟨b, 1, h, w⟩, ⟨b, 1, h, w⟩,
        ⟨b, 1, h, w⟩, ⟨b, 1, h, w⟩] := by
  unfold u2net_full_shape u2netForwardShape
  dsimp only
  rw [u2netFullEncode_eq b h w hh hw, Option.some_bind']
  simp only [List.reverse_cons, List.reverse_nil, List.append_nil, List.cons_append,
    List.nil_append, List.singleton_append]
  rw [u2netFullDecode_eq b h w hh hw, Option.some_bind']
  simp only [u2netFullEncodeCfg, u2netFullDecodeCfg, List.filter, List.map, List.length,
    List.reverse_cons, List.reverse_nil, List.append_nil, List.cons_append, List.nil_append,
    List.singleton_append, if_true, u2netSideShape, catAllCh, List.foldlM,
    conv2dShape_k3d, conv2dShape_k1, interpolateShape_eq, catChShape_eq,
    Option.some_bind', Option.map_some', one_le_ch2, hh, hw, Nat.reduceAdd, Nat.reduceMul,
    Nat.le_refl, Option.bind_eq_bind, Option.pure_def]

theorem u2netFullShape_pyr (b h w : Nat) (hh : 32 ≤ h) (hw : 32 ≤ w) :
    u2net_full_shape 1 2 false ⟨b, 2, h, w⟩ =
      some [⟨b, 1, h, w⟩, ⟨b, 1, h, w⟩, ⟨b, 1, h / 2, w / 2⟩, ⟨b, 1, h / 4, w / 4⟩,
        ⟨b, 1, h / 8, w / 8⟩, ⟨b, 1, h / 16, w / 16⟩, ⟨b, 1, h / 32, w / 32⟩] := by
  have hh1 : 1 ≤ h := by omega
  have hw1 : 1 ≤ w := by omega
  unfold u2net_full_shape u2netForwardShape
  dsimp only
  rw [u2netFullEncode_eq b h w hh1 hw1, Option.some_bind']
  simp only [List.reverse_cons, List.reverse_nil, List.append_nil, List.cons_append,
    List.nil_append, List.singleton_append]
  rw [u2netFullDecode_eq b h w hh1 hw1, Option.some_bind']
  simp only [u2netFullEncodeCfg, u2netFullDecodeCfg, List.filter, List.map,
    List.reverse_cons, List.reverse_nil, List.append_nil, List.cons_append, List.nil_append,
    List.singleton_append, Bool.false_eq_true, if_false, u2netPyrShape, pyrReconShape,
    List.getLast?, List.getLast, List.dropLast, conv2dShape_k3d, conv2dShape_k1, interpolateShape_eq,
    addShape_eq, Option.some_bind', Option.map_some', one_le_ch2, hh1, hw1,
    Nat.reduceAdd, Nat.reduceSub, Nat.reducePow, Nat.le_refl, Nat.div_one,
    Option.bind_eq_bind, Option.pure_def,
    show 1 ≤ h / 32 by omega, show 1 ≤ w / 32 by omega,
    show 1 ≤ h / 16 by omega, show 1 ≤ w / 16 by omega,
    show 1 ≤ h / 8 by omega, show 1 ≤ w / 8 by omega,
    show 1 ≤ h / 4 by omega, show 1 ≤ w / 4 by omega,
    show 1 ≤ h / 2 by omega, show 1 ≤ w / 2 by omega]

theorem unetDeepMassShape_eq (b k l : Nat) (hk : 1 ≤ k) (hl : 1 ≤ l) :
    unetDeepMassShape 1 1 ⟨b, 1, 32 * k, 32 * l⟩ = some ⟨b, 1, 32 * k, 32 * l⟩ := by
  have a1 : fl2 (32 * k) = 16 * k := by unfold fl2; omega
  have a2 : fl2 (16 * k) = 8 * k := by unfold fl2; omega
  have a3 : fl2 (8 * k) = 4 * k := by unfold fl2; omega
  have a4 : fl2 (4 * k) = 2 * k := by unfold fl2; omega
  have b1 : fl2 (32 * l) = 16 * l := by unfold fl2; omega
  have b2 : fl2 (16 * l) = 8 * l := by unfold fl2; omega
  have b3 : fl2 (8 * l) = 4 * l := by unfold fl2; omega
  have b4 : fl2 (4 * l) = 2 * l := by unfold fl2; omega
  have u1 : 2 * (2 * k) = 4 * k := by ring
  have u2 : 2 * (4 * k) = 8 * k := by ring
  have u3 : 2 * (8 * k) = 16 * k := by ring
  have u4 : 2 * (16 * k) = 32 * k := by ring
  have v1 : 2 * (2 * l) = 4 * l := by ring
  have v2 : 2 * (4 * l) = 8 * l := by ring
  have v3 : 2 * (8 * l) = 16 * l := by ring
  have v4 : 2 * (16 * l) = 32 * l := by ring
  have c1 : 1 ≤ 32 * k := by omega
  have c2 : 1 ≤ 16 * k := by omega
  have c3 : 1 ≤ 8 * k := by omega
  have c4 : 1 ≤ 4 * k := by omega
  have c5 : 1 ≤ 2 * k := by omega
  have c6 : 2 ≤ 32 * k := by omega
  have c7 : 2 ≤ 16 * k := by omega
  have c8 : 2 ≤ 8 * k := by omega
  have c9 : 2 ≤ 4 * k := by omega
  have d1 : 1 ≤ 32 * l := by omega
  have d2 : 1 ≤ 16 * l := by omega
  have d3 : 1 ≤ 8 * l := by omega
  have d4 : 1 ≤ 4 * l := by omega
  have d5 : 1 ≤ 2 * l := by omega
  have d6 : 2 ≤ 32 * l := by omega
  have d7 : 2 ≤ 16 * l := by omega
  have d8 : 2 ≤ 8 * l := by omega
  have d9 : 2 ≤ 4 * l := by omega
  simp only [unetDeepMassShape, deepMassEnc12, deepMassEnc34, deepMassDec5, deepMassDec67,
    conv2dShape_k3d, conv2dShape_k1, batchNorm2dShape_same, avgPool2dShape_floor,
    upsample2Shape_eq, catChShape_eq, Option.bind_eq_bind, Option.pure_def,
    Option.some_bind', Option.map_some', Nat.le_refl, Nat.reduceAdd,
    a1, a2, a3, a4, b1, b2, b3, b4, u1, u2, u3, u4, v1, v2, v3, v4,
    c1, c2, c3, c4, c5, c6, c7, c8, c9, d1, d2, d3, d4, d5, d6, d7, d8, d9]

/-- C5: for every input of shape `(batch, 2, H, W)` with `H` and `W` nonzero
multiples of 32, the network built by `u2net_full` produces a primary output
of shape `(batch, 1, H, W)` in either output-combination mode; likewise the
simple fixed-depth network with channels `[1, 1]` maps `(batch, 1, H, W)` to
`(batch, 1, H, W)`. -/
theorem c5_output_shape (b h w : Nat) (hh : 32 ∣ h) (hw : 32 ∣ w)
    (hh0 : h ≠ 0) (hw0 : w ≠ 0) :
    (∀ mode1x1 : Bool, ∃ sides,
      u2net_full_shape 1 2 mode1x1 ⟨b, 2, h, w⟩ = some (⟨b, 1, h, w⟩ :: sides))
    ∧ unetDeepMassShape 1 1 ⟨b, 1, h, w⟩ = some ⟨b, 1, h, w⟩ := by
  obtain ⟨k, rfl⟩ := hh
  obtain ⟨l, rfl⟩ := hw
  constructor
  · intro mode1x1
    cases mode1x1 with
    | true => exact ⟨_, u2netFullShape_1x1 b (32 * k) (32 * l) (by omega) (by omega)⟩
    | false => exact ⟨_, u2netFullShape_pyr b (32 * k) (32 * l) (by omega) (by omega)⟩
  · exact unetDeepMassShape_eq b k l (by omega) (by omega)

/-- Witness for C5 at `batch = 1`, `H = W = 32`. -/
theorem c5_output_shape_witness :
    (∃ sides, u2net_full_shape 1 2 true ⟨1, 2, 32, 32⟩ = some (⟨1, 1, 32, 32⟩ :: sides))
    ∧ unetDeepMassShape 1 1 ⟨1, 1, 32, 32⟩ = some ⟨1, 1, 32, 32⟩ :=
  ⟨(c5_output_shape 1 32 32 (by norm_num) (by norm_num) (by norm_num) (by norm_num)).1 true,
   (c5_output_shape 1 32 32 (by norm_num) (by norm_num) (by norm_num) (by norm_num)).2⟩
